import Mathlib

/-
Shallow embedding of the response-classification and request-building layer
of the workos-rust SDK (src/core/response.rs, src/core/error.rs,
src/core/traits.rs, and the operation files that the claims cite).

Modelling conventions:
  - HTTP status codes are Nat, response bodies are String.
  - The content-type header is Option String: the value of
    headers().get("content-type").and_then(|v| v.to_str().ok()), with a
    missing or unreadable header collapsed to none.
  - reqwest::Error is ReqError: transport failures carry no status,
    errors produced by error_for_status carry the status code, and serde
    decode failures carry the decoder message (reqwest decode errors do
    not carry a status).
  - serde deserialization is type-directed in Rust, so each json::<T>()
    call is modelled by an explicit parse function String -> Except String T
    passed as an argument.
  - Classification is instrumented with a bodyRead flag that is true
    exactly on the branches where the Rust code awaits self.json() or
    self.text(), so that claims about the body never being read are
    statements about the flag.
-/

namespace WorkOsRust

/-- A transport-level response as the classifier sees it: status code, the
readable value of the content-type header when present, and the body text. -/
structure Response where
  status : Nat
  contentType : Option String
  body : String
deriving DecidableEq, Repr

/-- Embedding of reqwest::Error restricted to what the SDK observes of it:
a transport failure (status() is None), an error produced by
error_for_status carrying the status code, or a body-decode failure. -/
inductive ReqError where
  | transport (cause : String)
  | statusError (code : Nat)
  | decodeError (detail : String)
deriving DecidableEq, Repr

/-- Embedding of reqwest::Error::status(): only errors generated from a
response status carry a status code. -/
def ReqError.statusOf : ReqError → Option Nat
  | ReqError.statusError c => some c
  | _ => none

/-- Embedding of WorkOsError from src/core/error.rs, generic over the
operation error type E. The apiError constructor carries the payload that
src/core/response.rs constructs it with (the JSON-decoded error body, of
type V); the snapshot of src/core/error.rs declares a struct form with
status and body fields that no code in the snapshot constructs. -/
inductive WorkOsError (E V : Type) where
  | operation (e : E)
  | unauthorized
  | urlParseError (msg : String)
  | ipAddrParseError (msg : String)
  | requestError (err : ReqError)
  | apiError (payload : V)
deriving DecidableEq, Repr

/-- Embedding of StatusCode::is_client_error: 400 <= s < 500. -/
def is_client_error (s : Nat) : Bool :=
  decide (400 ≤ s) && decide (s < 500)

/-- Embedding of StatusCode::is_server_error: 500 <= s < 600. -/
def is_server_error (s : Nat) : Bool :=
  decide (500 ≤ s) && decide (s < 600)

/-- Embedding of the content-type test in handle_generic_error:
the header is present, readable, and its lowercased value starts with
application/json. Lowercasing is modelled per character with Char.toLower,
which agrees with the ASCII case folding relevant to header values, and
the prefix test is over the character lists. -/
def headerIsJson : Option String → Bool
  | some v => List.isPrefixOf "application/json".data (v.data.map Char.toLower)
  | none => false

/-- Embedding of reqwest Response::error_for_status: consumes the response,
returning it unchanged unless the status is a client or server error, in
which case it returns an error carrying that status. The body is not read. -/
def error_for_status (r : Response) : Except ReqError Response :=
  if is_client_error r.status || is_server_error r.status then
    Except.error (ReqError.statusError r.status)
  else
    Except.ok r

/-- Embedding of reqwest Response::error_for_status_ref: same decision as
error_for_status but by reference, yielding no response on success. -/
def error_for_status_ref (r : Response) : Except ReqError Unit :=
  if is_client_error r.status || is_server_error r.status then
    Except.error (ReqError.statusError r.status)
  else
    Except.ok ()

/-- Result of one classification pass together with an instrumentation
flag recording whether the branch taken read the response body. -/
structure ClassifyOut (E V : Type) where
  result : Except (WorkOsError E V) Response
  bodyRead : Bool
deriving Repr

/-- Embedding of ResponseExt::handle_unauthorized_error from
src/core/response.rs: status 401 fails with Unauthorized, anything else
passes the response through. The body is not touched. -/
def handle_unauthorized_error {E V : Type} (r : Response) :
    Except (WorkOsError E V) Response :=
  if r.status == 401 then
    Except.error WorkOsError.unauthorized
  else
    Except.ok r

/-- Embedding of ResponseExt::handle_generic_error from
src/core/response.rs. parseBody models the type-directed serde decode of
self.json() on the error path. On a client or server error status: if the
content-type is JSON the body is read and decoded, a successful decode
failing with ApiError of the payload and a failed decode failing with
RequestError of the decode error; otherwise error_for_status decides,
which for these statuses always fails with RequestError carrying the
status. Other statuses pass through unchanged with the body unread. -/
def handle_generic_error {E V : Type} (parseBody : String → Except String V)
    (r : Response) : ClassifyOut E V :=
  if is_client_error r.status || is_server_error r.status then
    if headerIsJson r.contentType then
      match parseBody r.body with
      | Except.ok v =>
          ⟨Except.error (WorkOsError.apiError v), true⟩
      | Except.error msg =>
          ⟨Except.error (WorkOsError.requestError (ReqError.decodeError msg)), true⟩
    else
      match error_for_status r with
      | Except.ok resp => ⟨Except.ok resp, false⟩
      | Except.error err => ⟨Except.error (WorkOsError.requestError err), false⟩
  else
    ⟨Except.ok r, false⟩

/-- Embedding of ResponseExt::handle_unauthorized_or_generic_error from
src/core/response.rs: the 401 check runs first and short-circuits, then
the generic-error handling runs on the passed-through response. -/
def handle_unauthorized_or_generic_error {E V : Type}
    (parseBody : String → Except String V) (r : Response) : ClassifyOut E V :=
  match handle_unauthorized_error (E := E) (V := V) r with
  | Except.error e => ⟨Except.error e, false⟩
  | Except.ok r2 => handle_generic_error parseBody r2

/-- Embedding of the authenticate error payload shape shared by
AuthenticateWithCodeError and AuthenticateWithRefreshTokenError: an error
code and a description, both strings. -/
structure AuthenticateErrorBody where
  error : String
  error_description : String
deriving DecidableEq, Repr

/-- Embedding of HandleAuthenticateWithCodeError::handle_authenticate_with_code_error
from src/user_management/operations/authenticate_with_code.rs: check
error_for_status_ref; on success pass the response through; on an error
whose status is 400, decode the body as AuthenticateWithCodeError (a decode
failure propagating as RequestError via the question-mark operator), then
map invalid_client and unauthorized_client to Unauthorized and every other
code to Operation of the payload; on an error with any other status fail
with RequestError carrying that error. -/
def handle_authenticate_with_code_error {V : Type}
    (parseAuth : String → Except String AuthenticateErrorBody) (r : Response) :
    Except (WorkOsError AuthenticateErrorBody V) Response :=
  match error_for_status_ref r with
  | Except.ok _ => Except.ok r
  | Except.error err =>
    match ReqError.statusOf err with
    | some 400 =>
      match parseAuth r.body with
      | Except.error msg =>
          Except.error (WorkOsError.requestError (ReqError.decodeError msg))
      | Except.ok payload =>
          if payload.error == "invalid_client" || payload.error == "unauthorized_client" then
            Except.error WorkOsError.unauthorized
          else
            Except.error (WorkOsError.operation payload)
    | _ => Except.error (WorkOsError.requestError err)

/-- Embedding of handle_authenticate_with_refresh_token_error from
src/user_management/operations/authenticate_with_refresh_token.rs, whose
body is identical in structure to the code variant. -/
def handle_authenticate_with_refresh_token_error {V : Type}
    (parseAuth : String → Except String AuthenticateErrorBody) (r : Response) :
    Except (WorkOsError AuthenticateErrorBody V) Response :=
  match error_for_status_ref r with
  | Except.ok _ => Except.ok r
  | Except.error err =>
    match ReqError.statusOf err with
    | some 400 =>
      match parseAuth r.body with
      | Except.error msg =>
          Except.error (WorkOsError.requestError (ReqError.decodeError msg))
      | Except.ok payload =>
          if payload.error == "invalid_client" || payload.error == "unauthorized_client" then
            Except.error WorkOsError.unauthorized
          else
            Except.error (WorkOsError.operation payload)
    | _ => Except.error (WorkOsError.requestError err)

/-- Embedding of the get_user pipeline from
src/user_management/operations/get_user.rs after the request is built:
a failed send propagates as RequestError via the question-mark operator,
an ok send is classified by handle_unauthorized_or_generic_error, and a
classified-ok response has its body decoded as the User target type, a
decode failure propagating as RequestError. -/
def get_user {E V U : Type} (parseBody : String → Except String V)
    (parseUser : String → Except String U)
    (sendResult : Except ReqError Response) : Except (WorkOsError E V) U :=
  match sendResult with
  | Except.error e => Except.error (WorkOsError.requestError e)
  | Except.ok resp =>
    match (handle_unauthorized_or_generic_error (E := E) parseBody resp).result with
    | Except.error e => Except.error e
    | Except.ok resp2 =>
      match parseUser resp2.body with
      | Except.ok u => Except.ok u
      | Except.error msg =>
          Except.error (WorkOsError.requestError (ReqError.decodeError msg))

/-- Result of one operation run together with an instrumentation flag
recording whether the response classifier was invoked. -/
structure OperationTrace (E V U : Type) where
  result : Except (WorkOsError E V) U
  classifierRan : Bool
deriving Repr

/-- Embedding of the create_organization pipeline from
src/organizations/operations/create_organization.rs after the request is
built: a failed send propagates as RequestError via the question-mark
operator before the classifier is reached; an ok send is classified, and a
classified-ok response has its body decoded as the Organization target
type. The classifierRan flag records whether classification was reached. -/
def create_organization {E V U : Type} (parseBody : String → Except String V)
    (parseOrg : String → Except String U)
    (sendResult : Except ReqError Response) : OperationTrace E V U :=
  match sendResult with
  | Except.error e => ⟨Except.error (WorkOsError.requestError e), false⟩
  | Except.ok resp =>
    match (handle_unauthorized_or_generic_error (E := E) parseBody resp).result with
    | Except.error e => ⟨Except.error e, true⟩
    | Except.ok resp2 =>
      match parseOrg resp2.body with
      | Except.ok u => ⟨Except.ok u, true⟩
      | Except.error msg =>
          ⟨Except.error (WorkOsError.requestError (ReqError.decodeError msg)), true⟩

/-- Embedding of ApiKey from src/core/types/api_key.rs: a newtype over a
string; Display and Serialize both emit the inner string unchanged. -/
structure ApiKey where
  value : String
deriving DecidableEq, Repr

/-- Embedding of ClientSecret from src/user_management/types/client_secret.rs:
a distinct newtype over a string, not an ApiKey. -/
structure ClientSecret where
  value : String
deriving DecidableEq, Repr

/-- Rendering of an optional string field under serde_json: a missing value
serializes as null (none of the cited params structs use skip attributes). -/
def optVal : Option String → String
  | some v => v
  | none => "null"

/-- Embedding of AuthenticateWithRefreshTokenParams from
src/user_management/operations/authenticate_with_refresh_token.rs, with the
newtype reference fields flattened to their inner strings. -/
structure AuthenticateWithRefreshTokenParams where
  client_id : String
  refresh_token : String
  organization_id : Option String
  ip_address : Option String
  user_agent : Option String
deriving DecidableEq, Repr

/-- Embedding of AuthenticateWithRefreshTokenBody: the client secret field
holds the ApiKey of the WorkOs client (taken from workos.key()), the grant
type is a string, and the params struct is flattened into the same object
by the serde flatten attribute. -/
structure AuthenticateWithRefreshTokenBody where
  client_secret : ApiKey
  grant_type : String
  params : AuthenticateWithRefreshTokenParams
deriving DecidableEq, Repr

/-- Serde serialization of AuthenticateWithRefreshTokenParams as a list of
JSON field name and value pairs. -/
def serializeAuthenticateWithRefreshTokenParams
    (p : AuthenticateWithRefreshTokenParams) : List (String × String) :=
  [("client_id", p.client_id),
   ("refresh_token", p.refresh_token),
   ("organization_id", optVal p.organization_id),
   ("ip_address", optVal p.ip_address),
   ("user_agent", optVal p.user_agent)]

/-- Serde serialization of AuthenticateWithRefreshTokenBody: its own fields
followed by the flattened params fields. -/
def serializeAuthenticateWithRefreshTokenBody
    (b : AuthenticateWithRefreshTokenBody) : List (String × String) :=
  ("client_secret", b.client_secret.value) ::
    ("grant_type", b.grant_type) ::
      serializeAuthenticateWithRefreshTokenParams b.params

/-- Embedding of AuthenticateWithCodeParams from
src/user_management/operations/authenticate_with_code.rs: the client secret
here is the distinct ClientSecret type supplied by the caller, not the
ApiKey of the client. -/
structure AuthenticateWithCodeParams where
  client_id : String
  client_secret : Option ClientSecret
  code_verifier : Option String
  code : String
  invitation_token : Option String
  ip_address : Option String
  user_agent : Option String
deriving DecidableEq, Repr

/-- Serde serialization of AuthenticateWithCodeParams as field name and
value pairs. -/
def serializeAuthenticateWithCodeParams
    (p : AuthenticateWithCodeParams) : List (String × String) :=
  [("client_id", p.client_id),
   ("client_secret", optVal (p.client_secret.map ClientSecret.value)),
   ("code_verifier", optVal p.code_verifier),
   ("code", p.code),
   ("invitation_token", optVal p.invitation_token),
   ("ip_address", optVal p.ip_address),
   ("user_agent", optVal p.user_agent)]

/-- Serde serialization of AuthenticateWithCodeBody: the grant type field
followed by the flattened params fields. -/
def serializeAuthenticateWithCodeBody (grant_type : String)
    (p : AuthenticateWithCodeParams) : List (String × String) :=
  ("grant_type", grant_type) :: serializeAuthenticateWithCodeParams p

/-- Embedding of OrganizationDomainData from
src/organizations/operations/create_organization.rs. -/
structure OrganizationDomainData where
  domain : String
  state : String
deriving DecidableEq, Repr

/-- Embedding of CreateOrganizationParams from
src/organizations/operations/create_organization.rs; metadata is modelled
as an optional list of key and value pairs. -/
structure CreateOrganizationParams where
  name : String
  domain_data : List OrganizationDomainData
  external_id : Option String
  metadata : Option (List (String × String))
deriving DecidableEq, Repr

/-- Rendering of the domain_data array as a single JSON value string for
the flat field list model. -/
def renderDomainData (ds : List OrganizationDomainData) : String :=
  String.intercalate ","
    (ds.map (fun d => d.domain ++ ":" ++ d.state))

/-- Rendering of the metadata object as a single JSON value string for the
flat field list model. -/
def renderMetadata : Option (List (String × String)) → String
  | some kvs => String.intercalate "," (kvs.map (fun kv => kv.1 ++ ":" ++ kv.2))
  | none => "null"

/-- Serde serialization of CreateOrganizationParams as field name and value
pairs. -/
def serializeCreateOrganizationParams
    (p : CreateOrganizationParams) : List (String × String) :=
  [("name", p.name),
   ("domain_data", renderDomainData p.domain_data),
   ("external_id", optVal p.external_id),
   ("metadata", renderMetadata p.metadata)]

/-- An outbound request as the operation layer builds it: the URL path, the
bearer-auth header value when bearer_auth is called, and the serialized
JSON body fields (empty when no body is attached). -/
structure BuiltRequest where
  url : String
  bearer : Option String
  bodyFields : List (String × String)
deriving DecidableEq, Repr

/-- Embedding of the request built by create_organization: POST to
/organizations with bearer_auth of the ApiKey and the params as JSON body. -/
def buildCreateOrganizationRequest (key : ApiKey)
    (p : CreateOrganizationParams) : BuiltRequest :=
  ⟨"/organizations", some key.value, serializeCreateOrganizationParams p⟩

/-- Embedding of the request built by get_user: GET to the user URL with
bearer_auth of the ApiKey and no body. -/
def buildGetUserRequest (key : ApiKey) (id : String) : BuiltRequest :=
  ⟨"/user_management/users/" ++ id, some key.value, []⟩

/-- Embedding of the request built by authenticate_with_code: POST to the
authenticate URL with no bearer_auth call and the body with grant type
authorization_code; the ApiKey is not an input of this request at all. -/
def buildAuthenticateWithCodeRequest
    (p : AuthenticateWithCodeParams) : BuiltRequest :=
  ⟨"/user_management/authenticate", none,
    serializeAuthenticateWithCodeBody "authorization_code" p⟩

/-- Embedding of the request built by authenticate_with_refresh_token: POST
to the authenticate URL with no bearer_auth call and a body whose
client_secret field is the ApiKey of the client. -/
def buildAuthenticateWithRefreshTokenRequest (key : ApiKey)
    (p : AuthenticateWithRefreshTokenParams) : BuiltRequest :=
  ⟨"/user_management/authenticate", none,
    serializeAuthenticateWithRefreshTokenBody ⟨key, "refresh_token", p⟩⟩

/-- C1: for every response with status 401, handle_unauthorized_or_generic_error
fails with Unauthorized, for every body and every content-type header, and
the body is not read during classification. -/
theorem classify_401_is_unauthorized {E V : Type}
    (parseBody : String → Except String V) (r : Response)
    (h : r.status = 401) :
    handle_unauthorized_or_generic_error (E := E) parseBody r =
      ⟨Except.error WorkOsError.unauthorized, false⟩ := by
  unfold handle_unauthorized_or_generic_error handle_unauthorized_error
  rw [h]
  rfl

/-- Witness for C1 at a concrete 401 response whose body would parse as a
valid payload and whose content type is JSON. -/
theorem classify_401_is_unauthorized_witness :
    (Response.mk 401 (some "application/json") "ok payload").status = 401 ∧
    handle_unauthorized_or_generic_error (E := Unit) (V := String)
        (fun s => Except.ok s) (Response.mk 401 (some "application/json") "ok payload") =
      ⟨Except.error WorkOsError.unauthorized, false⟩ :=
  ⟨rfl, classify_401_is_unauthorized (fun s => Except.ok s) _ rfl⟩

/-- C3: for every response with status in the range 200 to 299,
handle_unauthorized_or_generic_error returns the response unchanged and
does not read the body. -/
theorem classify_2xx_passthrough {E V : Type}
    (parseBody : String → Except String V) (r : Response)
    (h1 : 200 ≤ r.status) (h2 : r.status < 300) :
    handle_unauthorized_or_generic_error (E := E) parseBody r =
      ⟨Except.ok r, false⟩ := by
  have h401 : (r.status == 401) = false := by
    simp only [beq_eq_false_iff_ne, ne_eq]
    omega
  have hce : is_client_error r.status = false := by
    simp only [is_client_error, Bool.and_eq_false_iff, decide_eq_false_iff_not, not_le, not_lt]
    omega
  have hse : is_server_error r.status = false := by
    simp only [is_server_error, Bool.and_eq_false_iff, decide_eq_false_iff_not, not_le, not_lt]
    omega
  simp [handle_unauthorized_or_generic_error, handle_unauthorized_error,
    handle_generic_error, h401, hce, hse]

/-- Witness for C3 at a concrete 201 response. -/
theorem classify_2xx_passthrough_witness :
    200 ≤ (Response.mk 201 (some "application/json") "created").status ∧
    (Response.mk 201 (some "application/json") "created").status < 300 ∧
    handle_unauthorized_or_generic_error (E := Unit) (V := String)
        (fun s => Except.ok s) (Response.mk 201 (some "application/json") "created") =
      ⟨Except.ok (Response.mk 201 (some "application/json") "created"), false⟩ :=
  ⟨by decide, by decide,
    classify_2xx_passthrough (fun s => Except.ok s) _ (by decide) (by decide)⟩

/-- C9: for every response with status in the range 100 to 399 other than
401 (vacuously, since 401 is outside that range), including informational
and redirect statuses, handle_unauthorized_or_generic_error returns the
response unchanged with the body unread, exactly as for a 2xx response. -/
theorem classify_1xx_3xx_passthrough {E V : Type}
    (parseBody : String → Except String V) (r : Response)
    (h1 : 100 ≤ r.status) (h2 : r.status < 400) (h3 : r.status ≠ 401) :
    handle_unauthorized_or_generic_error (E := E) parseBody r =
      ⟨Except.ok r, false⟩ := by
  have h401 : (r.status == 401) = false := by
    simp only [beq_eq_false_iff_ne, ne_eq]
    omega
  have hce : is_client_error r.status = false := by
    simp only [is_client_error, Bool.and_eq_false_iff, decide_eq_false_iff_not, not_le, not_lt]
    omega
  have hse : is_server_error r.status = false := by
    simp only [is_server_error, Bool.and_eq_false_iff, decide_eq_false_iff_not, not_le, not_lt]
    omega
  simp [handle_unauthorized_or_generic_error, handle_unauthorized_error,
    handle_generic_error, h401, hce, hse]

/-- Witness for C9 at a concrete 302 redirect response. -/
theorem classify_1xx_3xx_passthrough_witness :
    100 ≤ (Response.mk 302 none "redirect").status ∧
    (Response.mk 302 none "redirect").status < 400 ∧
    (Response.mk 302 none "redirect").status ≠ 401 ∧
    handle_unauthorized_or_generic_error (E := Unit) (V := String)
        (fun s => Except.ok s) (Response.mk 302 none "redirect") =
      ⟨Except.ok (Response.mk 302 none "redirect"), false⟩ :=
  ⟨by decide, by decide, by decide,
    classify_1xx_3xx_passthrough (fun s => Except.ok s) _ (by decide) (by decide) (by decide)⟩

/-- C2 counterexample: the claim that the non-JSON branch captures the raw
status and body text as an ApiError fails on the code. For a 404 text/html
response the classifier returns RequestError carrying the status from
error_for_status, not an ApiError, and for a 404 application/json response
it returns ApiError carrying only the decoded payload, with no status. -/
theorem classify_generic_error_counterexample :
    (handle_unauthorized_or_generic_error (E := Unit) (V := String)
        (fun s => Except.ok s) (Response.mk 404 (some "text/html") "oops")).result =
      Except.error (WorkOsError.requestError (ReqError.statusError 404)) ∧
    (handle_unauthorized_or_generic_error (E := Unit) (V := String)
        (fun s => Except.ok s) (Response.mk 404 (some "application/json") "denied")).result =
      Except.error (WorkOsError.apiError "denied") :=
  ⟨rfl, rfl⟩

/-- C2 amended: for every response with status in the range 400 to 599
other than 401, handle_unauthorized_or_generic_error returns an error. If
the content-type header starts with application/json case-insensitively,
the body is decoded: a successful decode yields ApiError carrying the
decoded payload (and only the payload), a failed decode yields
RequestError carrying the decode error. Otherwise error_for_status yields
RequestError carrying the original status code; the raw body text is not
captured on that branch. -/
theorem classify_generic_error_shape {E V : Type}
    (parseBody : String → Except String V) (r : Response)
    (h1 : 400 ≤ r.status) (h2 : r.status < 600) (h3 : r.status ≠ 401) :
    (handle_unauthorized_or_generic_error (E := E) parseBody r).result =
      (if headerIsJson r.contentType then
        match parseBody r.body with
        | Except.ok v => Except.error (WorkOsError.apiError v)
        | Except.error msg =>
            Except.error (WorkOsError.requestError (ReqError.decodeError msg))
      else
        Except.error (WorkOsError.requestError (ReqError.statusError r.status))) := by
  have h401 : (r.status == 401) = false := by
    simp only [beq_eq_false_iff_ne, ne_eq]
    exact h3
  have herr : (is_client_error r.status || is_server_error r.status) = true := by
    simp only [is_client_error, is_server_error, Bool.or_eq_true, Bool.and_eq_true,
      decide_eq_true_eq]
    omega
  by_cases hj : headerIsJson r.contentType
  · cases hp : parseBody r.body <;>
      simp [handle_unauthorized_or_generic_error, handle_unauthorized_error,
        handle_generic_error, h401, herr, hj, hp]
  · simp [handle_unauthorized_or_generic_error, handle_unauthorized_error,
      handle_generic_error, error_for_status, h401, herr, hj]

/-- Witness for the amended C2 at a concrete 500 response with no
content-type header. -/
theorem classify_generic_error_shape_witness :
    400 ≤ (Response.mk 500 none "oops").status ∧
    (Response.mk 500 none "oops").status < 600 ∧
    (Response.mk 500 none "oops").status ≠ 401 ∧
    (handle_unauthorized_or_generic_error (E := Unit) (V := String)
        (fun s => Except.ok s) (Response.mk 500 none "oops")).result =
      (if headerIsJson (Response.mk 500 none "oops").contentType then
        match (fun (s : String) => (Except.ok s : Except String String))
            (Response.mk 500 none "oops").body with
        | Except.ok v => Except.error (WorkOsError.apiError v)
        | Except.error msg =>
            Except.error (WorkOsError.requestError (ReqError.decodeError msg))
      else
        Except.error (WorkOsError.requestError
          (ReqError.statusError (Response.mk 500 none "oops").status))) :=
  ⟨by decide, by decide, by decide,
    classify_generic_error_shape (fun s => Except.ok s) _ (by decide) (by decide) (by decide)⟩

/-- C4: whenever the transport send fails, create_organization returns
RequestError wrapping the underlying cause, for every possible cause, and
the response classifier is never invoked on that call. -/
theorem create_organization_transport_failure {E V U : Type}
    (parseBody : String → Except String V) (parseOrg : String → Except String U)
    (e : ReqError) :
    create_organization (E := E) parseBody parseOrg (Except.error e) =
      ⟨Except.error (WorkOsError.requestError e), false⟩ :=
  rfl

/-- C6: for a response that passed classification, a failure to decode the
success body into the target type makes get_user return RequestError
wrapping the decode error. -/
theorem get_user_decode_failure {E V U : Type}
    (parseBody : String → Except String V) (parseUser : String → Except String U)
    (r r2 : Response) (msg : String)
    (hok : (handle_unauthorized_or_generic_error (E := E) parseBody r).result =
      Except.ok r2)
    (hp : parseUser r2.body = Except.error msg) :
    get_user (E := E) parseBody parseUser (Except.ok r) =
      Except.error (WorkOsError.requestError (ReqError.decodeError msg)) := by
  unfold get_user
  simp only [hok, hp]

/-- Witness for C6 at a concrete classified-ok 200 response whose body the
target decoder rejects. -/
theorem get_user_decode_failure_witness :
    (handle_unauthorized_or_generic_error (E := Unit) (V := String)
        (fun s => Except.ok s) (Response.mk 200 none "notjson")).result =
      Except.ok (Response.mk 200 none "notjson") ∧
    (fun (_ : String) => (Except.error "bad" : Except String Nat))
        (Response.mk 200 none "notjson").body = Except.error "bad" ∧
    get_user (E := Unit) (fun s => Except.ok s)
        (fun _ => (Except.error "bad" : Except String Nat))
        (Except.ok (Response.mk 200 none "notjson")) =
      Except.error (WorkOsError.requestError (ReqError.decodeError "bad")) :=
  ⟨rfl, rfl, get_user_decode_failure _ _ _ _ _ rfl rfl⟩

/-- C5: for a 400 response whose body decodes to an authenticate error
payload, handle_authenticate_with_code_error maps the codes invalid_client
and unauthorized_client to Unauthorized and every other code to Operation
carrying the decoded error and description. -/
theorem authenticate_with_code_400_mapping {V : Type}
    (parseAuth : String → Except String AuthenticateErrorBody) (r : Response)
    (e d : String)
    (h400 : r.status = 400)
    (hp : parseAuth r.body = Except.ok ⟨e, d⟩) :
    handle_authenticate_with_code_error (V := V) parseAuth r =
      (if e = "invalid_client" ∨ e = "unauthorized_client" then
        Except.error WorkOsError.unauthorized
      else
        Except.error (WorkOsError.operation ⟨e, d⟩)) := by
  have herr : error_for_status_ref r = Except.error (ReqError.statusError 400) := by
    unfold error_for_status_ref
    rw [h400]
    rfl
  unfold handle_authenticate_with_code_error
  rw [herr]
  simp only [ReqError.statusOf, hp]
  by_cases he : e = "invalid_client" ∨ e = "unauthorized_client"
  · have hb : (e == "invalid_client" || e == "unauthorized_client") = true := by
      simp only [Bool.or_eq_true, beq_iff_eq]
      exact he
    simp [hb, he]
  · have hb : (e == "invalid_client" || e == "unauthorized_client") = false := by
      simp only [Bool.or_eq_false_iff, beq_eq_false_iff_ne, ne_eq]
      exact not_or.mp he
    simp [hb, he]

/-- Witness for C5 at a concrete 400 response decoding to the
invalid_client error code. -/
theorem authenticate_with_code_400_mapping_witness :
    (Response.mk 400 (some "application/json") "err").status = 400 ∧
    (fun (_ : String) =>
        (Except.ok (AuthenticateErrorBody.mk "invalid_client" "Invalid client ID.") :
          Except String AuthenticateErrorBody))
      (Response.mk 400 (some "application/json") "err").body =
        Except.ok ⟨"invalid_client", "Invalid client ID."⟩ ∧
    handle_authenticate_with_code_error (V := String)
        (fun _ => Except.ok ⟨"invalid_client", "Invalid client ID."⟩)
        (Response.mk 400 (some "application/json") "err") =
      (if "invalid_client" = "invalid_client" ∨ "invalid_client" = "unauthorized_client" then
        Except.error WorkOsError.unauthorized
      else
        Except.error (WorkOsError.operation ⟨"invalid_client", "Invalid client ID."⟩)) :=
  ⟨rfl, rfl, authenticate_with_code_400_mapping _ _ _ _ rfl rfl⟩

/-- C10: for a 401 response, both authenticate error handlers return
RequestError carrying the 401 status produced by error_for_status_ref,
not Unauthorized, since only status 400 triggers the body inspection. -/
theorem authenticate_handlers_401_request_error {V : Type}
    (pc pr : String → Except String AuthenticateErrorBody) (r : Response)
    (h : r.status = 401) :
    handle_authenticate_with_code_error (V := V) pc r =
      Except.error (WorkOsError.requestError (ReqError.statusError 401)) ∧
    handle_authenticate_with_refresh_token_error (V := V) pr r =
      Except.error (WorkOsError.requestError (ReqError.statusError 401)) := by
  have herr : error_for_status_ref r = Except.error (ReqError.statusError 401) := by
    unfold error_for_status_ref
    rw [h]
    rfl
  constructor
  · unfold handle_authenticate_with_code_error
    rw [herr]
    rfl
  · unfold handle_authenticate_with_refresh_token_error
    rw [herr]
    rfl

/-- Witness for C10 at a concrete 401 response. -/
theorem authenticate_handlers_401_request_error_witness :
    (Response.mk 401 (some "application/json") "expired").status = 401 ∧
    (handle_authenticate_with_code_error (V := String)
        (fun _ => Except.ok ⟨"invalid_client", "x"⟩)
        (Response.mk 401 (some "application/json") "expired") =
      Except.error (WorkOsError.requestError (ReqError.statusError 401)) ∧
    handle_authenticate_with_refresh_token_error (V := String)
        (fun _ => Except.ok ⟨"invalid_client", "x"⟩)
        (Response.mk 401 (some "application/json") "expired") =
      Except.error (WorkOsError.requestError (ReqError.statusError 401))) :=
  ⟨rfl, authenticate_handlers_401_request_error _ _ _ rfl⟩

/-- C7 counterexample: the claim that the raw key never appears outside
the Authorization header fails on the code. The request built by
authenticate_with_refresh_token carries the raw ApiKey as the
client_secret field of its JSON body, as the repository test for that
operation itself asserts. -/
theorem api_key_in_refresh_token_body_counterexample :
    ("client_secret", "sk_example_123456789") ∈
      (buildAuthenticateWithRefreshTokenRequest (ApiKey.mk "sk_example_123456789")
        (AuthenticateWithRefreshTokenParams.mk "client_123456789" "abc123"
          none none none)).bodyFields := by
  simp [buildAuthenticateWithRefreshTokenRequest,
    serializeAuthenticateWithRefreshTokenBody]

/-- C7 amended: across the modelled operations the ApiKey influences only
the Authorization header and, for authenticate_with_refresh_token, the
client_secret field of the JSON body. Swapping the key leaves the URL and
body of create_organization and get_user unchanged, leaves the whole
authenticate_with_code request unchanged since the key is not an input of
it, and changes the refresh-token request only at the client_secret body
field; the bearer header of both authenticate requests is empty. -/
theorem api_key_flows_only_to_auth_header_or_client_secret
    (k1 k2 : ApiKey) (p : CreateOrganizationParams) (id : String)
    (q : AuthenticateWithCodeParams) (t : AuthenticateWithRefreshTokenParams) :
    (buildCreateOrganizationRequest k1 p).bodyFields =
      (buildCreateOrganizationRequest k2 p).bodyFields ∧
    (buildCreateOrganizationRequest k1 p).url =
      (buildCreateOrganizationRequest k2 p).url ∧
    (buildGetUserRequest k1 id).bodyFields = (buildGetUserRequest k2 id).bodyFields ∧
    (buildGetUserRequest k1 id).url = (buildGetUserRequest k2 id).url ∧
    (buildAuthenticateWithCodeRequest q).bearer = none ∧
    (buildAuthenticateWithRefreshTokenRequest k1 t).bearer = none ∧
    (buildAuthenticateWithRefreshTokenRequest k1 t).url =
      (buildAuthenticateWithRefreshTokenRequest k2 t).url ∧
    ((buildAuthenticateWithRefreshTokenRequest k1 t).bodyFields.filter
        (fun kv => !(kv.1 == "client_secret"))) =
      ((buildAuthenticateWithRefreshTokenRequest k2 t).bodyFields.filter
        (fun kv => !(kv.1 == "client_secret"))) := by
  refine ⟨rfl, rfl, rfl, rfl, rfl, rfl, rfl, ?_⟩
  simp [buildAuthenticateWithRefreshTokenRequest,
    serializeAuthenticateWithRefreshTokenBody,
    serializeAuthenticateWithRefreshTokenParams]

end WorkOsRust
